import Mathlib

/-!
Verification development for the `elections-be` backend (Express + Sequelize
voting demo).  The definitions below are a shallow embedding of the request
handlers in `server.js` (the session-store variant; the JWT variant
`part_000` has the identical vote/register handlers, and the in-memory
variants `part_001`/`part_002` have the identical CRUD merge/splice
semantics).  Database tables are modelled as Lean lists, Sequelize
`findOne`/`findAll` as `List.find?` / the list itself, row saves as list
maps keyed on the primary key, and the WebSocket fan-out as appending a
message to every client whose `readyState` is open.
-/

namespace Elections

/-- Candidate row of the Sequelize `Candidate` model in `server.js`
(string primary key `id`, display fields, `voteCount` integer defaulting
to 0 and only ever incremented by the vote handler, hence a `Nat`). -/
structure Candidate where
  id : String
  name : String
  party : String
  description : String
  imageUrl : String
  voteCount : Nat
deriving Repr, DecidableEq

/-- User row of the Sequelize `User` model in `server.js`: a 13-digit
`cnp` national identifier (unique column), a `hasVoted` flag defaulting
to false and a nullable `votedCandidateId`. -/
structure User where
  cnp : String
  hasVoted : Bool
  votedCandidateId : Option String
deriving Repr, DecidableEq

/-- The single WebSocket message shape the server ever sends:
`JSON.stringify({ type: 'candidates', data: candidates })`.  Serialization
is modelled by the injective constructor. -/
inductive Msg where
  | candidates (data : List Candidate)
deriving Repr, DecidableEq

/-- A connected WebSocket client: its `readyState` (`true` models
`WebSocket.OPEN`) and the list of messages sent to it so far. -/
structure Client where
  readyState : Bool
  sent : List Msg
deriving Repr, DecidableEq

/-- Shared server state: the `users` table, the `candidates` table, and
the set `wss.clients` of connected WebSocket clients. -/
structure ServerState where
  users : List User
  candidates : List Candidate
  clients : List Client
deriving Repr, DecidableEq

/-- Error kinds of the structured error payloads of `server.js`, one per
distinct error response of the handlers. -/
inductive ApiError where
  | invalidFormat
  | conflict
  | unauthorized
  | notFound
  | alreadyVoted
  | internal
deriving Repr, DecidableEq

/-- HTTP status attached to each error payload by the handlers in
`server.js` (400 for validation/conflict/already-voted, 401 for auth,
404 for missing candidate, 500 for unexpected failures). -/
def ApiError.status : ApiError → Nat
  | .invalidFormat => 400
  | .conflict => 400
  | .unauthorized => 401
  | .notFound => 404
  | .alreadyVoted => 400
  | .internal => 500

/-- Body of `broadcastCandidates` in `server.js`: for each client in
`wss.clients`, if `client.readyState === WebSocket.OPEN` the serialized
snapshot is sent, otherwise the client is skipped (nothing queued). -/
def broadcastClients (cls : List Client) (data : List Candidate) : List Client :=
  cls.map fun c =>
    if c.readyState then { c with sent := c.sent ++ [Msg.candidates data] } else c

/-- The function `broadcastCandidates` of `server.js`: fetch the full
current candidate list and push it to every open client. -/
def broadcastCandidates (s : ServerState) : ServerState :=
  { s with clients := broadcastClients s.clients s.candidates }

/-- The regular expression check of the register handler, testing the
body's `cnp` against the pattern of thirteen decimal digits. -/
def isValidCNP (cnp : String) : Bool :=
  cnp.length == 13 && cnp.data.all Char.isDigit

/-- Registry effect of `POST /api/register` in `server.js`: reject a cnp
that is not 13 decimal digits with 400 Invalid CNP format, reject an
existing cnp with 400 User already exists, otherwise create the user
(whose `hasVoted` defaults to false and `votedCandidateId` to null). -/
def register (cnp : String) (s : ServerState) : Except ApiError Unit × ServerState :=
  if isValidCNP cnp then
    match s.users.find? (fun u => u.cnp == cnp) with
    | some _ => (.error .conflict, s)
    | none =>
        (.ok (),
         { s with users := s.users ++ [{ cnp := cnp, hasVoted := false, votedCandidateId := none }] })
  else (.error .invalidFormat, s)

/-- Handler of `POST /api/vote/:candidateId` in `server.js`, run to
completion as one sequential block: find the authenticated user (a null
user makes `user.hasVoted` throw, caught as a 500), reject if already
voted, 404 if the candidate id is unknown, otherwise set the flag and
chosen id, increment the candidate's count, save both rows and
broadcast. -/
def vote (cnp : String) (candidateId : String) (s : ServerState) :
    Except ApiError Unit × ServerState :=
  match s.users.find? (fun u => u.cnp == cnp) with
  | none => (.error .internal, s)
  | some user =>
    if user.hasVoted then (.error .alreadyVoted, s)
    else
      match s.candidates.find? (fun c => c.id == candidateId) with
      | none => (.error .notFound, s)
      | some _ =>
          let s1 : ServerState :=
            { s with
              users := s.users.map fun u =>
                if u.cnp == cnp then
                  { u with hasVoted := true, votedCandidateId := some candidateId }
                else u,
              candidates := s.candidates.map fun c =>
                if c.id == candidateId then { c with voteCount := c.voteCount + 1 } else c }
          (.ok (), broadcastCandidates s1)

/-- Fields a create request must supply (the `Candidate` model declares
name, party, description and imageUrl non-nullable).  Any `id` or
`voteCount` in the body is overridden by the handler's spread
`{ ...req.body, id: uuidv4(), voteCount: 0 }`. -/
structure CandidatePayload where
  name : String
  party : String
  description : String
  imageUrl : String
deriving Repr, DecidableEq

/-- Handler of `POST /api/candidates` in `server.js`: store a new row
whose id is a fresh uuid and whose voteCount is 0, then broadcast. -/
def createCandidate (freshId : String) (body : CandidatePayload) (s : ServerState) :
    Candidate × ServerState :=
  let c : Candidate :=
    { id := freshId, name := body.name, party := body.party,
      description := body.description, imageUrl := body.imageUrl, voteCount := 0 }
  (c, broadcastCandidates { s with candidates := s.candidates ++ [c] })

/-- Update request body: any subset of the candidate's fields, each
optional field present being applied over the stored row (the spread
`{ ...candidates[index], ...req.body }` of the in-memory variants,
`candidate.update(req.body)` in the Sequelize variants). -/
structure UpdatePayload where
  id : Option String
  name : Option String
  party : Option String
  description : Option String
  imageUrl : Option String
  voteCount : Option Nat
deriving Repr, DecidableEq

/-- Merge of an update body over a stored candidate: absent fields keep
their stored values, present fields (including `id` and `voteCount`)
are overwritten. -/
def mergeCandidate (c : Candidate) (p : UpdatePayload) : Candidate :=
  { id := p.id.getD c.id,
    name := p.name.getD c.name,
    party := p.party.getD c.party,
    description := p.description.getD c.description,
    imageUrl := p.imageUrl.getD c.imageUrl,
    voteCount := p.voteCount.getD c.voteCount }

/-- Handler of `PUT /api/candidates/:id`: 404 when the id is absent,
otherwise merge the body over the stored row and broadcast. -/
def updateCandidate (id : String) (body : UpdatePayload) (s : ServerState) :
    Except ApiError Candidate × ServerState :=
  match s.candidates.find? (fun c => c.id == id) with
  | none => (.error .notFound, s)
  | some c =>
      let c1 := mergeCandidate c body
      (.ok c1,
       broadcastCandidates
         { s with candidates := s.candidates.map fun x => if x.id == id then c1 else x })

/-- Handler of `DELETE /api/candidates/:id`: 404 when the id is absent,
otherwise remove the row and broadcast. -/
def deleteCandidate (id : String) (s : ServerState) : Except ApiError Unit × ServerState :=
  match s.candidates.find? (fun c => c.id == id) with
  | none => (.error .notFound, s)
  | some _ =>
      (.ok (),
       broadcastCandidates { s with candidates := s.candidates.filter fun c => !(c.id == id) })

/-- Handler of `POST /api/candidates/generate`: `generateCandidate()` in
`server.js` is a faker-based random generator always returning a record
with a fresh uuid and `voteCount: 0`; its output is passed in as the
`generated` argument, stored, and broadcast. -/
def generateRoute (generated : Candidate) (s : ServerState) : Candidate × ServerState :=
  (generated, broadcastCandidates { s with candidates := s.candidates ++ [generated] })

/-- Read-only handler of `GET /api/candidates`. -/
def listCandidates (s : ServerState) : List Candidate × ServerState :=
  (s.candidates, s)

/-- The `authenticateSession` middleware of `server.js`: no `X-Session-ID`
header yields 401; a session id whose store lookup fails (missing,
errored, or expired — an expired session is absent from the store) yields
401; otherwise the session's user identity (cnp) is resolved.  The store
is a list of (sessionId, cnp) pairs. -/
def authenticateSession (header : Option String) (sessionStore : List (String × String)) :
    Except ApiError String :=
  match header with
  | none => .error .unauthorized
  | some sid =>
    match sessionStore.find? (fun p => p.1 == sid) with
    | none => .error .unauthorized
    | some p => .ok p.2

/-- Route wrapper: the middleware runs before the handler; on auth
failure the handler never runs and the state is untouched, on success the
handler receives the resolved identity. -/
def protectedRoute {α : Type} (header : Option String) (sessionStore : List (String × String))
    (onAuthFail : α) (handler : String → ServerState → α × ServerState) (s : ServerState) :
    α × ServerState :=
  match authenticateSession header sessionStore with
  | .error _ => (onAuthFail, s)
  | .ok cnp => handler cnp s

/-- `GET /api/candidates` behind `authenticateSession`. -/
def listCandidatesRoute (h : Option String) (store : List (String × String)) (s : ServerState) :
    Except ApiError (List Candidate) × ServerState :=
  protectedRoute h store (.error .unauthorized) (fun _ st => (.ok st.candidates, st)) s

/-- `POST /api/candidates` behind `authenticateSession`. -/
def createCandidateRoute (h : Option String) (store : List (String × String))
    (freshId : String) (body : CandidatePayload) (s : ServerState) :
    Except ApiError Candidate × ServerState :=
  protectedRoute h store (.error .unauthorized)
    (fun _ st => let p := createCandidate freshId body st; (.ok p.1, p.2)) s

/-- `PUT /api/candidates/:id` behind `authenticateSession`. -/
def updateCandidateRoute (h : Option String) (store : List (String × String))
    (id : String) (body : UpdatePayload) (s : ServerState) :
    Except ApiError Candidate × ServerState :=
  protectedRoute h store (.error .unauthorized) (fun _ st => updateCandidate id body st) s

/-- `DELETE /api/candidates/:id` behind `authenticateSession`. -/
def deleteCandidateRoute (h : Option String) (store : List (String × String))
    (id : String) (s : ServerState) : Except ApiError Unit × ServerState :=
  protectedRoute h store (.error .unauthorized) (fun _ st => deleteCandidate id st) s

/-- `POST /api/candidates/generate` behind `authenticateSession`. -/
def generateCandidateRoute (h : Option String) (store : List (String × String))
    (generated : Candidate) (s : ServerState) : Except ApiError Candidate × ServerState :=
  protectedRoute h store (.error .unauthorized)
    (fun _ st => let p := generateRoute generated st; (.ok p.1, p.2)) s

/-- `POST /api/vote/:candidateId` behind `authenticateSession`: the
handler uses the resolved identity (`req.session.user.cnp`). -/
def voteRoute (h : Option String) (store : List (String × String))
    (candidateId : String) (s : ServerState) : Except ApiError Unit × ServerState :=
  protectedRoute h store (.error .unauthorized) (fun cnp st => vote cnp candidateId st) s

/-!
Small-step model of the vote handler for concurrency analysis.  Node.js
interleaves concurrent requests at `await` boundaries; the handler of
`POST /api/vote/:candidateId` awaits four database operations in order:
`User.findOne`, `Candidate.findOne`, `user.save()`, `candidate.save()`
(then `broadcastCandidates`).  In-memory field assignments between awaits
run atomically with the adjacent step.  A request is therefore a
four-step program over the shared state, and a schedule interleaves the
steps of two requests.
-/

instance {ε α : Type} [DecidableEq ε] [DecidableEq α] : DecidableEq (Except ε α) := fun a b =>
  match a, b with
  | .error e1, .error e2 =>
      if h : e1 = e2 then isTrue (by rw [h]) else isFalse (fun hc => h (by cases hc; rfl))
  | .ok x, .ok y =>
      if h : x = y then isTrue (by rw [h]) else isFalse (fun hc => h (by cases hc; rfl))
  | .error _, .ok _ => isFalse (fun hc => Except.noConfusion hc)
  | .ok _, .error _ => isFalse (fun hc => Except.noConfusion hc)

/-- In-flight vote request: voter identity, target candidate, program
counter over the await boundaries, the candidate row snapshot fetched by
`Candidate.findOne` (whose stale `voteCount` the final save writes back
incremented), and the response once sent. -/
structure VoteReq where
  cnp : String
  candidateId : String
  pc : Nat
  candSnap : Option Candidate
  response : Option (Except ApiError Unit)
deriving Repr, DecidableEq

/-- A fresh vote request for voter `cnp` targeting `cid`. -/
def mkVoteReq (cnp cid : String) : VoteReq :=
  { cnp := cnp, candidateId := cid, pc := 0, candSnap := none, response := none }

/-- One await-delimited step of the vote handler: pc 0 = `User.findOne`
plus the `hasVoted` check, pc 1 = `Candidate.findOne` plus the null
check, pc 2 = `user.save()` (writes flag and chosen id), pc 3 =
`candidate.save()` (writes the snapshot's count plus one) and the
broadcast, pc 4 = finished. -/
def voteStep (r : VoteReq) (s : ServerState) : VoteReq × ServerState :=
  match r.pc with
  | 0 =>
    match s.users.find? (fun u => u.cnp == r.cnp) with
    | none => ({ r with pc := 4, response := some (.error .internal) }, s)
    | some u =>
      if u.hasVoted then ({ r with pc := 4, response := some (.error .alreadyVoted) }, s)
      else ({ r with pc := 1 }, s)
  | 1 =>
    match s.candidates.find? (fun c => c.id == r.candidateId) with
    | none => ({ r with pc := 4, response := some (.error .notFound) }, s)
    | some c => ({ r with pc := 2, candSnap := some c }, s)
  | 2 =>
    ({ r with pc := 3 },
     { s with users := s.users.map fun u =>
         if u.cnp == r.cnp then
           { u with hasVoted := true, votedCandidateId := some r.candidateId }
         else u })
  | 3 =>
    match r.candSnap with
    | none => ({ r with pc := 4, response := some (.error .internal) }, s)
    | some c =>
      ({ r with pc := 4, response := some (.ok ()) },
       broadcastCandidates
         { s with candidates := s.candidates.map fun x =>
             if x.id == r.candidateId then { x with voteCount := c.voteCount + 1 } else x })
  | _ => (r, s)

/-- Run two in-flight requests under a schedule: `true` steps the first
request, `false` the second. -/
def runSchedule (sched : List Bool) (r1 r2 : VoteReq) (s : ServerState) :
    VoteReq × VoteReq × ServerState :=
  match sched with
  | [] => (r1, r2, s)
  | b :: rest =>
    if b then
      let p := voteStep r1 s
      runSchedule rest p.1 r2 p.2
    else
      let p := voteStep r2 s
      runSchedule rest r1 p.1 p.2

/-- Number of voters whose chosen candidate id references `cid`. -/
def countVotesFor (users : List User) (cid : String) : Nat :=
  (users.filter fun u => u.votedCandidateId == some cid).length

/-- Vote-count consistency: each stored candidate's count equals the
number of voters referencing it. -/
def voteCountInvariant (s : ServerState) : Prop :=
  ∀ c ∈ s.candidates, c.voteCount = countVotesFor s.users c.id

/-- A voter who has not voted has no chosen candidate (true of every
reachable state: registration creates users with null choice and only
the vote handler sets it, together with the flag). -/
def flagsConsistent (s : ServerState) : Prop :=
  ∀ u ∈ s.users, u.hasVoted = false → u.votedCandidateId = none

/-- The database uniqueness constraints: `cnp` is a unique column of
`users` and `id` is the primary key of `candidates`. -/
def uniqueKeys (s : ServerState) : Prop :=
  (s.users.map User.cnp).Nodup ∧ (s.candidates.map Candidate.id).Nodup

/-- Conjunction of the representation invariants above. -/
def stateInvariant (s : ServerState) : Prop :=
  flagsConsistent s ∧ uniqueKeys s ∧ voteCountInvariant s

instance (s : ServerState) : Decidable (flagsConsistent s) := by
  unfold flagsConsistent; exact List.decidableBAll _ _

instance (s : ServerState) : Decidable (voteCountInvariant s) := by
  unfold voteCountInvariant; exact List.decidableBAll _ _

instance (s : ServerState) : Decidable (uniqueKeys s) := by
  unfold uniqueKeys; exact instDecidableAnd

instance (s : ServerState) : Decidable (stateInvariant s) := by
  unfold stateInvariant; exact instDecidableAnd

/-- Concrete candidate used in the evaluation scenarios. -/
def cand1 : Candidate :=
  { id := "c1", name := "Ana Pop", party := "PNL",
    description := "a candidate", imageUrl := "http://img/1.jpg", voteCount := 0 }

/-- Concrete registered voter who has not voted. -/
def voterA : User :=
  { cnp := "1111111111111", hasVoted := false, votedCandidateId := none }

/-- Second concrete registered voter who has not voted. -/
def voterB : User :=
  { cnp := "2222222222222", hasVoted := false, votedCandidateId := none }

/-- Concrete voter who has already voted for `cand1`. -/
def voterV : User :=
  { cnp := "3333333333333", hasVoted := true, votedCandidateId := some "c1" }

/-- Concrete state: two fresh voters and one candidate with no votes. -/
def st0 : ServerState :=
  { users := [voterA, voterB], candidates := [cand1], clients := [] }

/-- Concrete state for the already-voted scenarios: `voterV` has voted for
`cand1`, whose count is accordingly 1; one open and one closed client. -/
def st1 : ServerState :=
  { users := [voterA, voterV],
    candidates := [{ cand1 with voteCount := 1 }],
    clients := [{ readyState := true, sent := [] }, { readyState := false, sent := [] }] }

/-! Helper lemmas. -/

/-- The broadcast only touches the clients. -/
theorem broadcastCandidates_users (s : ServerState) :
    (broadcastCandidates s).users = s.users := rfl

/-- The broadcast only touches the clients. -/
theorem broadcastCandidates_candidates (s : ServerState) :
    (broadcastCandidates s).candidates = s.candidates := rfl

/-- Count over a cons. -/
theorem countVotesFor_cons (u : User) (t : List User) (cid : String) :
    countVotesFor (u :: t) cid
      = (if u.votedCandidateId == some cid then 1 else 0) + countVotesFor t cid := by
  by_cases h : (u.votedCandidateId == some cid) = true <;>
    simp [countVotesFor, List.filter_cons, h] <;> omega

/-- Count over an append. -/
theorem countVotesFor_append (l1 l2 : List User) (cid : String) :
    countVotesFor (l1 ++ l2) cid = countVotesFor l1 cid + countVotesFor l2 cid := by
  simp [countVotesFor, List.filter_append]

/-- The user-row save of the vote handler is the identity on users whose
cnp differs from the voter's. -/
theorem voteMap_id (t : List User) (v cid : String)
    (h : ∀ u ∈ t, (u.cnp == v) = false) :
    (t.map fun u =>
        if u.cnp == v then { u with hasVoted := true, votedCandidateId := some cid } else u) = t := by
  induction t with
  | nil => rfl
  | cons a t ih =>
      simp only [List.map_cons, h a (List.mem_cons_self a t)]
      simp only [Bool.false_eq_true, if_false]
      rw [ih fun u hu => h u (List.mem_cons_of_mem _ hu)]

/-- Effect of the vote handler's user save on reference counts: with
unique cnps, a first-match voter who has not voted (hence references no
candidate), marking that voter as having voted for `cid` raises the
reference count of `cid` by one and leaves every other count unchanged. -/
theorem countVotesFor_voteMap (users : List User) (v cid : String)
    (hnd : (users.map User.cnp).Nodup)
    (u0 : User) (hfind : users.find? (fun u => u.cnp == v) = some u0)
    (hnv : u0.hasVoted = false)
    (hflags : ∀ u ∈ users, u.hasVoted = false → u.votedCandidateId = none)
    (c : String) :
    countVotesFor (users.map fun u =>
        if u.cnp == v then { u with hasVoted := true, votedCandidateId := some cid } else u) c
      = countVotesFor users c + (if c = cid then 1 else 0) := by
  induction users with
  | nil => simp at hfind
  | cons a t ih =>
      rw [List.map_cons, List.nodup_cons] at hnd
      by_cases ha : (a.cnp == v) = true
      · have hfa : (a :: t).find? (fun u => u.cnp == v) = some a :=
          List.find?_cons_of_pos _ ha
        rw [hfa] at hfind
        have hau : a = u0 := by injection hfind
        have hanone : a.votedCandidateId = none :=
          hflags a (List.mem_cons_self a t) (hau ▸ hnv)
        have hav : a.cnp = v := beq_iff_eq.mp ha
        have htid : ∀ u ∈ t, (u.cnp == v) = false := by
          intro u hu
          have : u.cnp ≠ v := by
            intro he
            exact hnd.1 (hav ▸ he ▸ List.mem_map_of_mem User.cnp hu)
          simpa using this
        rw [List.map_cons, voteMap_id t v cid htid]
        simp only [ha, if_true]
        rw [countVotesFor_cons, countVotesFor_cons, hanone]
        by_cases hc : c = cid
        · subst hc
          have hnone : ((none : Option String) == some c) = false := rfl
          simp only [hnone, Bool.false_eq_true, if_false]
          simp <;> omega
        · have h1 : ((some cid == some c : Bool)) = false := by
            rw [beq_eq_false_iff_ne]
            intro he
            exact hc (Option.some.inj he).symm
          have hnone : ((none : Option String) == some c) = false := rfl
          simp only [h1, hnone, hc, Bool.false_eq_true, if_false]
          omega
      · have hfind2 : t.find? (fun u => u.cnp == v) = some u0 := by
          have h2 : (a :: t).find? (fun u => u.cnp == v) = t.find? (fun u => u.cnp == v) :=
            List.find?_cons_of_neg t ha
          rw [h2] at hfind
          exact hfind
        have ih2 := ih hnd.2 hfind2
          (fun u hu => hflags u (List.mem_cons_of_mem _ hu))
        rw [List.map_cons]
        simp only [ha, Bool.false_eq_true, if_false]
        rw [countVotesFor_cons, countVotesFor_cons, ih2]
        omega

/-- The broadcast leaves every representation invariant untouched. -/
theorem stateInvariant_broadcast (s : ServerState) :
    stateInvariant (broadcastCandidates s) ↔ stateInvariant s := Iff.rfl

/-- Invariant preservation for the successful branch of the vote
handler: the simultaneous user save and candidate save keep the counts
consistent. -/
theorem stateInvariant_voteSuccess (s : ServerState) (cnp cid : String) (u0 : User)
    (hflags : flagsConsistent s) (hndu : (s.users.map User.cnp).Nodup)
    (hndc : (s.candidates.map Candidate.id).Nodup) (hcount : voteCountInvariant s)
    (hfind : s.users.find? (fun u => u.cnp == cnp) = some u0) (hnv : u0.hasVoted = false) :
    stateInvariant
      { s with
        users := s.users.map fun u =>
          if u.cnp == cnp then { u with hasVoted := true, votedCandidateId := some cid } else u,
        candidates := s.candidates.map fun c =>
          if c.id == cid then { c with voteCount := c.voteCount + 1 } else c } := by
  have hflags2 : ∀ u ∈ s.users, u.hasVoted = false → u.votedCandidateId = none := hflags
  refine ⟨?_, ⟨?_, ?_⟩, ?_⟩
  · intro x hx hxv
    obtain ⟨u, hu, hux⟩ := List.mem_map.mp hx
    by_cases hc : (u.cnp == cnp) = true
    · rw [← hux] at hxv
      simp [hc] at hxv
    · rw [← hux] at hxv ⊢
      simp only [hc, Bool.false_eq_true, if_false] at hxv ⊢
      exact hflags2 u hu hxv
  · have hm : ((s.users.map fun u =>
        if u.cnp == cnp then { u with hasVoted := true, votedCandidateId := some cid }
        else u).map User.cnp) = s.users.map User.cnp := by
      rw [List.map_map]
      apply List.map_congr_left
      intro a _
      by_cases hc : (a.cnp == cnp) = true <;> simp [Function.comp, hc]
    exact hm ▸ hndu
  · have hm : ((s.candidates.map fun c =>
        if c.id == cid then { c with voteCount := c.voteCount + 1 }
        else c).map Candidate.id) = s.candidates.map Candidate.id := by
      rw [List.map_map]
      apply List.map_congr_left
      intro a _
      by_cases hc : (a.id == cid) = true <;> simp [Function.comp, hc]
    exact hm ▸ hndc
  · intro x hx
    obtain ⟨c, hcmem, hcx⟩ := List.mem_map.mp hx
    have hcv := countVotesFor_voteMap s.users cnp cid hndu u0 hfind hnv hflags2
    by_cases hc : (c.id == cid) = true
    · have hcid : c.id = cid := beq_iff_eq.mp hc
      rw [← hcx]
      simp only [hc, if_true]
      show c.voteCount + 1 = countVotesFor _ c.id
      rw [hcv c.id, hcount c hcmem, hcid]
      simp
    · have hcid : c.id ≠ cid := by simpa using hc
      rw [← hcx]
      simp only [hc, Bool.false_eq_true, if_false]
      show c.voteCount = countVotesFor _ c.id
      rw [hcv c.id, hcount c hcmem, if_neg hcid]
      omega

/-- The vote handler preserves the representation invariants. -/
theorem stateInvariant_vote (s : ServerState) (hInv : stateInvariant s) (cnp cid : String) :
    stateInvariant (vote cnp cid s).2 := by
  obtain ⟨hflags, ⟨hndu, hndc⟩, hcount⟩ := hInv
  cases hfind : s.users.find? (fun u => u.cnp == cnp) with
  | none => simpa [vote, hfind] using ⟨hflags, ⟨hndu, hndc⟩, hcount⟩
  | some u =>
    by_cases hv : u.hasVoted = true
    · simpa [vote, hfind, hv] using ⟨hflags, ⟨hndu, hndc⟩, hcount⟩
    · have hv2 : u.hasVoted = false := by
        cases hvv : u.hasVoted
        · rfl
        · exact absurd hvv hv
      cases hcf : s.candidates.find? (fun c => c.id == cid) with
      | none => simpa [vote, hfind, hv2, hcf] using ⟨hflags, ⟨hndu, hndc⟩, hcount⟩
      | some c0 =>
        have hgoal := stateInvariant_voteSuccess s cnp cid u hflags hndu hndc hcount hfind hv2
        simpa [vote, hfind, hv2, hcf, stateInvariant_broadcast] using hgoal

/-- The register handler preserves the representation invariants. -/
theorem stateInvariant_register (s : ServerState) (hInv : stateInvariant s) (cnp : String) :
    stateInvariant (register cnp s).2 := by
  obtain ⟨hflags, ⟨hndu, hndc⟩, hcount⟩ := hInv
  by_cases hval : isValidCNP cnp = true
  · cases hfind : s.users.find? (fun u => u.cnp == cnp) with
    | some u => simpa [register, hval, hfind] using ⟨hflags, ⟨hndu, hndc⟩, hcount⟩
    | none =>
      have hnotin : cnp ∉ s.users.map User.cnp := by
        intro hmem
        obtain ⟨u, hu, he⟩ := List.mem_map.mp hmem
        have hne := List.find?_eq_none.mp hfind u hu
        simp [he] at hne
      simp only [register, hval, if_true, hfind]
      refine ⟨?_, ⟨?_, hndc⟩, ?_⟩
      · intro x hx hxv
        rcases List.mem_append.mp hx with hx1 | hx2
        · exact hflags x hx1 hxv
        · rw [List.mem_singleton.mp hx2]
      · rw [List.map_append, List.nodup_append]
        exact ⟨hndu, List.nodup_singleton _, List.disjoint_singleton.mpr hnotin⟩
      · intro c hc
        rw [countVotesFor_append]
        have hzero : countVotesFor
            [{ cnp := cnp, hasVoted := false, votedCandidateId := none }] c.id = 0 := rfl
        rw [hzero, hcount c hc]
        omega
  · simpa [register, hval] using ⟨hflags, ⟨hndu, hndc⟩, hcount⟩

/-- The delete handler preserves the representation invariants. -/
theorem stateInvariant_delete (s : ServerState) (hInv : stateInvariant s) (id : String) :
    stateInvariant (deleteCandidate id s).2 := by
  obtain ⟨hflags, ⟨hndu, hndc⟩, hcount⟩ := hInv
  cases hf : s.candidates.find? (fun c => c.id == id) with
  | none => simpa [deleteCandidate, hf] using ⟨hflags, ⟨hndu, hndc⟩, hcount⟩
  | some c =>
    simp only [deleteCandidate, hf]
    refine ⟨hflags, ⟨hndu, ?_⟩, ?_⟩
    · exact List.Nodup.sublist
        (List.Sublist.map Candidate.id (List.filter_sublist s.candidates)) hndc
    · intro x hx
      exact hcount x (List.mem_of_mem_filter hx)

/-- Appending a fresh zero-count candidate that no voter references
preserves the representation invariants (the create and generate
handlers both reduce to this). -/
theorem stateInvariant_appendCandidate (s : ServerState) (hInv : stateInvariant s)
    (c : Candidate) (hzero : c.voteCount = 0)
    (hfresh : c.id ∉ s.candidates.map Candidate.id)
    (href : ∀ u ∈ s.users, u.votedCandidateId ≠ some c.id) :
    stateInvariant (broadcastCandidates { s with candidates := s.candidates ++ [c] }) := by
  obtain ⟨hflags, ⟨hndu, hndc⟩, hcount⟩ := hInv
  refine ⟨hflags, ⟨hndu, ?_⟩, ?_⟩
  · show ((s.candidates ++ [c]).map Candidate.id).Nodup
    rw [List.map_append, List.nodup_append]
    exact ⟨hndc, List.nodup_singleton _, List.disjoint_singleton.mpr hfresh⟩
  · intro x hx
    rcases List.mem_append.mp hx with hx1 | hx2
    · exact hcount x hx1
    · rw [List.mem_singleton.mp hx2, hzero]
      show 0 = (s.users.filter fun u => u.votedCandidateId == some c.id).length
      rw [List.filter_eq_nil_iff.mpr fun u hu => by simpa using href u hu]
      rfl

end Elections

namespace Elections

/-- C1 as stated is false at a concrete input: from a state satisfying
every representation invariant, the update operation with a body
carrying a voteCount rewrites the stored count away from the number of
referencing voters, so not every operation preserves the vote-count
consistency invariant. -/
theorem update_breaks_voteCount_invariant :
    stateInvariant st0 ∧
    ¬ voteCountInvariant (updateCandidate "c1"
        { id := none, name := none, party := none, description := none,
          imageUrl := none, voteCount := some 5 } st0).2 := by
  constructor
  · decide
  · decide

/-- C1 (amended): recording a vote for a voter with an existing target
candidate atomically sets the voter's flag and chosen id and increments
that candidate's count in one transition, touching no other user or
candidate; the vote, register, delete and list operations preserve the
invariant that each candidate's count equals the number of voters whose
chosen id references it (together with the auxiliary reachable-state
invariants: unvoted voters reference nothing and keys are unique), and
so do create and generate for a fresh unreferenced id — but the update
operation is excluded, since a body carrying a voteCount breaks the
invariant. -/
theorem vote_atomic_and_invariant_preserved (s : ServerState) (hInv : stateInvariant s) :
    (∀ cnp cid u0 c0,
        s.users.find? (fun u => u.cnp == cnp) = some u0 → u0.hasVoted = false →
        s.candidates.find? (fun c => c.id == cid) = some c0 →
        (vote cnp cid s).1 = .ok () ∧
        (vote cnp cid s).2.users
          = (s.users.map fun u =>
              if u.cnp == cnp then { u with hasVoted := true, votedCandidateId := some cid }
              else u) ∧
        (vote cnp cid s).2.candidates
          = (s.candidates.map fun c =>
              if c.id == cid then { c with voteCount := c.voteCount + 1 } else c)) ∧
    (∀ cnp cid, stateInvariant (vote cnp cid s).2) ∧
    (∀ cnp, stateInvariant (register cnp s).2) ∧
    (∀ id, stateInvariant (deleteCandidate id s).2) ∧
    (∀ freshId body, freshId ∉ s.candidates.map Candidate.id →
        (∀ u ∈ s.users, u.votedCandidateId ≠ some freshId) →
        stateInvariant (createCandidate freshId body s).2) ∧
    (∀ gc : Candidate, gc.voteCount = 0 → gc.id ∉ s.candidates.map Candidate.id →
        (∀ u ∈ s.users, u.votedCandidateId ≠ some gc.id) →
        stateInvariant (generateRoute gc s).2) ∧
    stateInvariant (listCandidates s).2 := by
  refine ⟨?_, fun cnp cid => stateInvariant_vote s hInv cnp cid,
    fun cnp => stateInvariant_register s hInv cnp,
    fun id => stateInvariant_delete s hInv id,
    fun freshId body hfresh href => ?_,
    fun gc hzero hfresh href => ?_,
    hInv⟩
  · intro cnp cid u0 c0 hu hv hc
    refine ⟨?_, ?_, ?_⟩ <;> simp [vote, hu, hv, hc, broadcastCandidates]
  · exact stateInvariant_appendCandidate s hInv _ rfl hfresh href
  · exact stateInvariant_appendCandidate s hInv gc hzero hfresh href

/-- C1 witness: the invariants hold of the concrete state and are
preserved by a concrete successful vote. -/
theorem vote_atomic_and_invariant_preserved_witness :
    stateInvariant st0 ∧ stateInvariant (vote "1111111111111" "c1" st0).2 :=
  ⟨by decide, (vote_atomic_and_invariant_preserved st0 (by decide)).2.1 "1111111111111" "c1"⟩

/-- C2: the vote handler awaits `User.findOne`, `Candidate.findOne`,
`user.save()` and `candidate.save()` with no transaction or mutual
exclusion, so concurrent requests interleave at those await points.  The
schedule that alternates the two requests runs both reads before either
write: two distinct voters targeting the same candidate then both
succeed while the final count is 1, not 2 (the sequential schedule of
the same two requests yields 2, exhibiting the lost update), and two
concurrent requests by the same voter both pass the has-voted check and
both succeed instead of one observing AlreadyVoted. -/
theorem vote_concurrency_lost_update :
    (runSchedule [true, false, true, false, true, false, true, false]
        (mkVoteReq "1111111111111" "c1") (mkVoteReq "2222222222222" "c1") st0).1.response
      = some (.ok ()) ∧
    (runSchedule [true, false, true, false, true, false, true, false]
        (mkVoteReq "1111111111111" "c1") (mkVoteReq "2222222222222" "c1") st0).2.1.response
      = some (.ok ()) ∧
    (runSchedule [true, false, true, false, true, false, true, false]
        (mkVoteReq "1111111111111" "c1") (mkVoteReq "2222222222222" "c1") st0).2.2.candidates
      = [{ cand1 with voteCount := 1 }] ∧
    (runSchedule [true, true, true, true, false, false, false, false]
        (mkVoteReq "1111111111111" "c1") (mkVoteReq "2222222222222" "c1") st0).2.2.candidates
      = [{ cand1 with voteCount := 2 }] ∧
    (runSchedule [true, false, true, false, true, false, true, false]
        (mkVoteReq "1111111111111" "c1") (mkVoteReq "1111111111111" "c1") st0).1.response
      = some (.ok ()) ∧
    (runSchedule [true, false, true, false, true, false, true, false]
        (mkVoteReq "1111111111111" "c1") (mkVoteReq "1111111111111" "c1") st0).2.1.response
      = some (.ok ()) :=
  ⟨rfl, rfl, rfl, rfl, rfl, rfl⟩

/-- C3: a voter whose has-voted flag is set gets AlreadyVoted from any
vote attempt, for any target candidate, and the whole state — in
particular the voter's flag and previously chosen candidate id — is left
unchanged. -/
theorem vote_alreadyVoted_rejected (s : ServerState) (cnp cid : String) (u : User)
    (hu : s.users.find? (fun x => x.cnp == cnp) = some u) (hv : u.hasVoted = true) :
    vote cnp cid s = (.error .alreadyVoted, s) ∧
    (vote cnp cid s).2.users.find? (fun x => x.cnp == cnp) = some u ∧
    ApiError.alreadyVoted.status = 400 := by
  refine ⟨?_, ?_, rfl⟩ <;> simp [vote, hu, hv]

/-- C3 witness. -/
theorem vote_alreadyVoted_rejected_witness :
    vote "3333333333333" "nosuch" st1 = (.error .alreadyVoted, st1) :=
  (vote_alreadyVoted_rejected st1 "3333333333333" "nosuch" voterV (by decide) (by decide)).1

/-- C4: an authenticated voter who has not voted, casting a vote for an
id absent from the candidate store, gets NotFound (404); the state is
unchanged, so the voter's record still has the flag false and the chosen
id unset. -/
theorem vote_candidate_notFound (s : ServerState) (cnp cid : String) (u : User)
    (hu : s.users.find? (fun x => x.cnp == cnp) = some u) (hv : u.hasVoted = false)
    (hn : u.votedCandidateId = none)
    (hc : s.candidates.find? (fun c => c.id == cid) = none) :
    vote cnp cid s = (.error .notFound, s) ∧
    ApiError.notFound.status = 404 ∧
    (vote cnp cid s).2.users.find? (fun x => x.cnp == cnp) = some u ∧
    u.hasVoted = false ∧ u.votedCandidateId = none := by
  refine ⟨?_, rfl, ?_, hv, hn⟩ <;> simp [vote, hu, hv, hc]

/-- C4 witness. -/
theorem vote_candidate_notFound_witness :
    vote "1111111111111" "ghost" st0 = (.error .notFound, st0) :=
  (vote_candidate_notFound st0 "1111111111111" "ghost" voterA
    (by decide) (by decide) (by decide) (by decide)).1

/-- C8: updating or deleting a candidate id absent from the store fails
with NotFound (404) and returns the state untouched — the candidate
store is unchanged and no broadcast reaches any client. -/
theorem update_delete_notFound (s : ServerState) (id : String) (body : UpdatePayload)
    (h : s.candidates.find? (fun c => c.id == id) = none) :
    updateCandidate id body s = (.error .notFound, s) ∧
    deleteCandidate id s = (.error .notFound, s) ∧
    ApiError.notFound.status = 404 := by
  refine ⟨?_, ?_, rfl⟩ <;> simp [updateCandidate, deleteCandidate, h]

/-- C8 witness. -/
theorem update_delete_notFound_witness :
    updateCandidate "ghost"
        { id := none, name := none, party := none, description := none,
          imageUrl := none, voteCount := none } st0
      = (.error .notFound, st0) ∧
    deleteCandidate "ghost" st0 = (.error .notFound, st0) := by
  have h := update_delete_notFound st0 "ghost"
    { id := none, name := none, party := none, description := none,
      imageUrl := none, voteCount := none } (by decide)
  exact ⟨h.1, h.2.1⟩

/-- C6: every protected route — list, create, update, delete, generate,
vote — returns Unauthorized (401) with the state untouched whenever the
credential is absent, or its session-store lookup fails (invalid or
expired session), and the handler never runs; on a successful lookup the
route runs its handler with the resolved voter identity. -/
theorem auth_gate_spec (h : Option String) (store : List (String × String)) (s : ServerState)
    (freshId : String) (cbody : CandidatePayload) (id : String) (ubody : UpdatePayload)
    (gc : Candidate) (cid : String) :
    ApiError.unauthorized.status = 401 ∧
    authenticateSession none store = .error .unauthorized ∧
    (∀ sid, store.find? (fun p => p.1 == sid) = none →
        authenticateSession (some sid) store = .error .unauthorized) ∧
    (authenticateSession h store = .error .unauthorized →
        listCandidatesRoute h store s = (.error .unauthorized, s) ∧
        createCandidateRoute h store freshId cbody s = (.error .unauthorized, s) ∧
        updateCandidateRoute h store id ubody s = (.error .unauthorized, s) ∧
        deleteCandidateRoute h store id s = (.error .unauthorized, s) ∧
        generateCandidateRoute h store gc s = (.error .unauthorized, s) ∧
        voteRoute h store cid s = (.error .unauthorized, s)) ∧
    (∀ cnp, authenticateSession h store = .ok cnp →
        listCandidatesRoute h store s = (.ok s.candidates, s) ∧
        updateCandidateRoute h store id ubody s = updateCandidate id ubody s ∧
        deleteCandidateRoute h store id s = deleteCandidate id s ∧
        voteRoute h store cid s = vote cnp cid s) := by
  refine ⟨rfl, rfl, fun sid hn => ?_, fun hbad => ?_, fun cnp hok => ?_⟩
  · simp [authenticateSession, hn]
  · exact ⟨by simp [listCandidatesRoute, protectedRoute, hbad],
      by simp [createCandidateRoute, protectedRoute, hbad],
      by simp [updateCandidateRoute, protectedRoute, hbad],
      by simp [deleteCandidateRoute, protectedRoute, hbad],
      by simp [generateCandidateRoute, protectedRoute, hbad],
      by simp [voteRoute, protectedRoute, hbad]⟩
  · exact ⟨by simp [listCandidatesRoute, protectedRoute, hok],
      by simp [updateCandidateRoute, protectedRoute, hok],
      by simp [deleteCandidateRoute, protectedRoute, hok],
      by simp [voteRoute, protectedRoute, hok]⟩

/-- C6 witness: a missing header is rejected on a protected route with
the state unchanged. -/
theorem auth_gate_spec_witness :
    voteRoute none [("sid1", "1111111111111")] "c1" st0 = (.error .unauthorized, st0) :=
  ((auth_gate_spec none [("sid1", "1111111111111")] st0 "c9"
      { name := "n", party := "p", description := "d", imageUrl := "u" } "c1"
      { id := none, name := none, party := none, description := none,
        imageUrl := none, voteCount := none }
      cand1 "c1").2.2.2.1 rfl).2.2.2.2.2

/-- Positional shape of one fan-out pass. -/
theorem broadcastClients_forall2 (cls : List Client) (data : List Candidate) :
    List.Forall₂ (fun c c2 =>
        (c.readyState = true → c2 = { c with sent := c.sent ++ [Msg.candidates data] }) ∧
        (c.readyState = false → c2 = c))
      cls (broadcastClients cls data) := by
  induction cls with
  | nil => exact List.Forall₂.nil
  | cons a t ih =>
      refine List.Forall₂.cons ⟨fun ho => ?_, fun hcl => ?_⟩ ih
      · simp [ho]
      · simp [hcl]

/-- C7: each client receives exactly one new message per successful
mutation, namely the serialized post-mutation candidate list, and only
if its connection is open — a closed client's message list is untouched
(nothing queued); every successful create, generate, update, delete, or
vote performs exactly one such fan-out pass, and every failing mutation
leaves the whole state (clients included) unchanged. -/
theorem broadcast_on_mutation (s : ServerState) (freshId : String) (body : CandidatePayload)
    (id : String) (ubody : UpdatePayload) (gc : Candidate) (cnp cid : String) :
    (∀ (cls : List Client) (data : List Candidate),
        List.Forall₂ (fun c c2 =>
            (c.readyState = true → c2 = { c with sent := c.sent ++ [Msg.candidates data] }) ∧
            (c.readyState = false → c2 = c))
          cls (broadcastClients cls data)) ∧
    (createCandidate freshId body s).2.clients
      = broadcastClients s.clients (createCandidate freshId body s).2.candidates ∧
    (generateRoute gc s).2.clients
      = broadcastClients s.clients (generateRoute gc s).2.candidates ∧
    (∀ c, s.candidates.find? (fun x => x.id == id) = some c →
        (updateCandidate id ubody s).2.clients
          = broadcastClients s.clients (updateCandidate id ubody s).2.candidates) ∧
    (s.candidates.find? (fun x => x.id == id) = none →
        (updateCandidate id ubody s).2 = s) ∧
    (∀ c, s.candidates.find? (fun x => x.id == id) = some c →
        (deleteCandidate id s).2.clients
          = broadcastClients s.clients (deleteCandidate id s).2.candidates) ∧
    (s.candidates.find? (fun x => x.id == id) = none →
        (deleteCandidate id s).2 = s) ∧
    (∀ u c, s.users.find? (fun x => x.cnp == cnp) = some u → u.hasVoted = false →
        s.candidates.find? (fun x => x.id == cid) = some c →
        (vote cnp cid s).2.clients
          = broadcastClients s.clients (vote cnp cid s).2.candidates) ∧
    (∀ u, s.users.find? (fun x => x.cnp == cnp) = some u → u.hasVoted = true →
        (vote cnp cid s).2 = s) ∧
    (∀ u, s.users.find? (fun x => x.cnp == cnp) = some u → u.hasVoted = false →
        s.candidates.find? (fun x => x.id == cid) = none → (vote cnp cid s).2 = s) ∧
    (s.users.find? (fun x => x.cnp == cnp) = none → (vote cnp cid s).2 = s) := by
  refine ⟨broadcastClients_forall2, rfl, rfl,
    fun c hc => by simp [updateCandidate, hc, broadcastCandidates],
    fun hn => by simp [updateCandidate, hn],
    fun c hc => by simp [deleteCandidate, hc, broadcastCandidates],
    fun hn => by simp [deleteCandidate, hn],
    fun u c hu hv hc => by simp [vote, hu, hv, hc, broadcastCandidates],
    fun u hu hv => by simp [vote, hu, hv],
    fun u hu hv hn => by simp [vote, hu, hv, hn],
    fun hn => by simp [vote, hn]⟩

/-- C7 witness: a successful vote appends exactly one snapshot message to
the open client of `st1` and leaves the closed client untouched. -/
theorem broadcast_on_mutation_witness :
    (vote "1111111111111" "c1" st1).2.clients
      = broadcastClients st1.clients (vote "1111111111111" "c1" st1).2.candidates :=
  (broadcast_on_mutation st1 "c9"
      { name := "n", party := "p", description := "d", imageUrl := "u" } "c1"
      { id := none, name := none, party := none, description := none,
        imageUrl := none, voteCount := none }
      cand1 "1111111111111" "c1").2.2.2.2.2.2.2.1 voterA
    { cand1 with voteCount := 1 } (by decide) (by decide) (by decide)

/-- C10: updating an existing candidate merges the request body over the
stored row: every absent field keeps its stored value and every present
field — including voteCount and id — is overwritten with the body's
value, so a client can rewrite a candidate's vote count or identifier
through update. -/
theorem update_merges_payload (s : ServerState) (id : String) (body : UpdatePayload)
    (c : Candidate) (hc : s.candidates.find? (fun x => x.id == id) = some c) :
    updateCandidate id body s
      = (.ok (mergeCandidate c body),
         broadcastCandidates
           { s with candidates :=
               s.candidates.map fun x => if x.id == id then mergeCandidate c body else x }) ∧
    (body.voteCount = none → (mergeCandidate c body).voteCount = c.voteCount) ∧
    (∀ n, body.voteCount = some n → (mergeCandidate c body).voteCount = n) ∧
    (body.id = none → (mergeCandidate c body).id = c.id) ∧
    (∀ v, body.id = some v → (mergeCandidate c body).id = v) ∧
    (body.name = none → (mergeCandidate c body).name = c.name) ∧
    (∀ v, body.name = some v → (mergeCandidate c body).name = v) ∧
    (body.party = none → (mergeCandidate c body).party = c.party) ∧
    (∀ v, body.party = some v → (mergeCandidate c body).party = v) ∧
    (body.description = none → (mergeCandidate c body).description = c.description) ∧
    (∀ v, body.description = some v → (mergeCandidate c body).description = v) ∧
    (body.imageUrl = none → (mergeCandidate c body).imageUrl = c.imageUrl) ∧
    (∀ v, body.imageUrl = some v → (mergeCandidate c body).imageUrl = v) := by
  refine ⟨by simp [updateCandidate, hc], ?_, ?_, ?_, ?_, ?_, ?_, ?_, ?_, ?_, ?_, ?_, ?_⟩ <;>
    first
      | (intro h; simp [mergeCandidate, h])
      | (intro v h; simp [mergeCandidate, h])

/-- C9: registration rejects any identity that is not exactly 13 decimal
digits with InvalidFormat (400), rejects an identity already present in
the registry with Conflict, and otherwise creates the voter with the
has-voted flag false and no chosen candidate. -/
theorem register_spec (cnp : String) (s : ServerState) :
    (isValidCNP cnp = false →
        register cnp s = (.error .invalidFormat, s) ∧ ApiError.invalidFormat.status = 400) ∧
    (∀ u, isValidCNP cnp = true → s.users.find? (fun x => x.cnp == cnp) = some u →
        register cnp s = (.error .conflict, s)) ∧
    (isValidCNP cnp = true → s.users.find? (fun x => x.cnp == cnp) = none →
        register cnp s
          = (.ok (),
             { s with users :=
                 s.users ++ [{ cnp := cnp, hasVoted := false, votedCandidateId := none }] })) := by
  refine ⟨fun h => ⟨by simp [register, h], rfl⟩,
          fun u h1 h2 => by simp [register, h1, h2],
          fun h1 h2 => by simp [register, h1, h2]⟩

/-- C9 witness: a malformed identity, a duplicate identity, and a fresh
valid identity. -/
theorem register_spec_witness :
    register "12x" st0 = (.error .invalidFormat, st0) ∧
    register "1111111111111" st0 = (.error .conflict, st0) ∧
    register "4444444444444" st0
      = (.ok (),
         { st0 with users :=
             st0.users ++ [{ cnp := "4444444444444", hasVoted := false, votedCandidateId := none }] }) :=
  ⟨((register_spec "12x" st0).1 (by decide)).1,
   (register_spec "1111111111111" st0).2.1 voterA (by decide) (by decide),
   (register_spec "4444444444444" st0).2.2 (by decide) (by decide)⟩

/-- C5: creating a candidate from a valid payload with a fresh unique id
stores exactly the payload's fields under that id with a vote count of
zero; the new record is in the post-state store, a get by its id finds
it, and the list operation returns the store containing it. -/
theorem createCandidate_spec (s : ServerState) (freshId : String) (body : CandidatePayload)
    (hfresh : ∀ c ∈ s.candidates, (c.id == freshId) = false) :
    (createCandidate freshId body s).1
      = { id := freshId, name := body.name, party := body.party,
          description := body.description, imageUrl := body.imageUrl, voteCount := 0 } ∧
    (createCandidate freshId body s).2.candidates
      = s.candidates ++ [(createCandidate freshId body s).1] ∧
    (createCandidate freshId body s).1 ∈ (createCandidate freshId body s).2.candidates ∧
    (createCandidate freshId body s).2.candidates.find? (fun c => c.id == freshId)
      = some (createCandidate freshId body s).1 ∧
    (listCandidates (createCandidate freshId body s).2).1
      = (createCandidate freshId body s).2.candidates := by
  refine ⟨rfl, rfl, by simp [createCandidate, broadcastCandidates], ?_, rfl⟩
  have hnone : s.candidates.find? (fun c => c.id == freshId) = none :=
    List.find?_eq_none.mpr fun c hc => by simp [hfresh c hc]
  simp [createCandidate, broadcastCandidates, List.find?_append, hnone]

/-- C5 witness. -/
theorem createCandidate_spec_witness :
    (createCandidate "c9" { name := "Ion", party := "USR", description := "d2",
                            imageUrl := "http://img/2.jpg" } st0).2.candidates.find?
        (fun c => c.id == "c9")
      = some { id := "c9", name := "Ion", party := "USR", description := "d2",
               imageUrl := "http://img/2.jpg", voteCount := 0 } := by
  have h := createCandidate_spec st0 "c9"
    { name := "Ion", party := "USR", description := "d2", imageUrl := "http://img/2.jpg" }
    (by decide)
  rw [h.2.2.2.1, h.1]

/-- C10 witness: rewriting `voteCount` and `id` of the stored candidate. -/
theorem update_merges_payload_witness :
    (updateCandidate "c1"
        { id := some "hacked", name := none, party := none, description := none,
          imageUrl := none, voteCount := some 99 } st0).1
      = .ok { cand1 with id := "hacked", voteCount := 99 } := by
  have h := update_merges_payload st0 "c1"
    { id := some "hacked", name := none, party := none, description := none,
      imageUrl := none, voteCount := some 99 } cand1 (by decide)
  rw [h.1]
  decide

end Elections
